import Mathlib

/-!
Verification of the secured blob-storage subsystem of
`railway-image-service` (Go).  The HTTP entry point `cmd/server/main.go`
wires an access guard around a key-value blob store (`keyval`), a signer
(`signature` / `client/sign`) and an image-processing collaborator
(`imagor`).  This file embeds the routing and the `/serve` guard directly
from `cmd/server/main.go`, and models the blob store and signer components
from the design document where their sources are not part of the checked
tree.
-/

namespace RailwayImage

/-- The configuration fields of `main.go` that the routing and the `/serve`
guard read: `cfg.SecretKey` (API key secret), `cfg.SignatureSecretKey`
(signing secret), `cfg.Public` (a string compared against `"true"`), and
`cfg.Environment`. -/
structure Config where
  secretKey : String
  signatureSecretKey : String
  public : String
  environment : String
  deriving Repr, DecidableEq

/-- A `/serve` request as the handler in `main.go` sees it: the URL path
`r.URL.Path`, the `x-signature` query parameter (`""` when absent, as
Go's `url.Values.Get` returns), the `x-signature` header (`""` when
absent) and the `x-api-key` header (`""` when absent). -/
structure ServeRequest where
  path : String
  querySignature : String
  headerSignature : String
  apiKey : String
  deriving Repr, DecidableEq

/-- Outcome of the `/serve` handler in `main.go`: either it writes
`401 unauthorized` and returns, or it rewrites the URL path and hands the
request to `imagorService.ServeHTTP`. -/
inductive ServeOutcome where
  | unauthorized
  | forward (path : String)
  deriving Repr, DecidableEq

/-- Go's `strings.TrimPrefix(s, pre)`: drop `pre` from the front of `s`
when it is a prefix, otherwise return `s` unchanged (expressed on the
underlying character lists so that it evaluates by kernel reduction). -/
def trimPre (s pre : String) : String :=
  if pre.data.isPrefixOf s.data then ⟨s.data.drop pre.data.length⟩ else s

/-- Go's `subtle.ConstantTimeCompare(x, y)` as a pure function: `1` when
the two byte strings are equal, `0` otherwise (the constant-time execution
itself is not part of the functional model). -/
def constantTimeCompare (x y : String) : Nat :=
  if x = y then 1 else 0

/-- Modelled from the spec: the keyed hash behind
`mac = keyedHash(secret, canonicalize(path, expiry))` (section 4.1); the
source of the `client/sign` package is not in the checked tree.  A concrete
deterministic function of `(secret, message)` stands in for the HMAC; the
algebraic claims proved below do not depend on its choice. -/
def keyedHash (secret msg : String) : Nat :=
  (secret ++ "\x00" ++ msg).data.foldl (fun h c => (h * 31 + c.toNat) % (2 ^ 64)) 5381

/-- Modelled from the spec: canonicalization covers the decoded request
path (ignoring the query string) concatenated with the expiry when
present; omitting the expiry yields a perpetual token (section 4.1). -/
def canonicalize (path : String) (expiry : Option Nat) : String :=
  match expiry with
  | none => path
  | some e => path ++ toString e

/-- Modelled from the spec: a signature token `{path, expiry?, mac}`
(section 3, Data Model). -/
structure Token where
  mac : Nat
  expiry : Option Nat
  deriving Repr, DecidableEq

/-- Modelled from the spec: `Sign(path, secret, expiry?) → token`
(section 4.1). -/
def Sign (path secret : String) (expiry : Option Nat) : Token :=
  { mac := keyedHash secret (canonicalize path expiry), expiry := expiry }

/-- Modelled from the spec: verification outcome
`{valid | invalid | expired}` (section 4.1). -/
inductive VerifyResult where
  | valid
  | invalid
  | expired
  deriving Repr, DecidableEq

/-- Modelled from the spec: `Verify(path, token, secret, now)` recomputes
the keyed hash over the canonicalized path and expiry and compares it with
the token's mac; a mac mismatch is `invalid`, a past expiry is the
distinct `expired` outcome (section 4.1). -/
def Verify (path : String) (t : Token) (secret : String) (now : Nat) : VerifyResult :=
  if keyedHash secret (canonicalize path t.expiry) ≠ t.mac then .invalid
  else
    match t.expiry with
    | none => .valid
    | some e => if e < now then .expired else .valid

/-- Modelled from the spec: the string form of a token as it is embedded
in a URL by `sign.Sign(path, secret)` in `main.go` (perpetual token, no
expiry). -/
def signString (path secret : String) : String :=
  toString (Sign path secret none).mac

/-- The signature the `/serve` handler settles on before consulting the
API key: the `x-signature` query parameter, falling back to the
`x-signature` header when the query parameter is empty
(`main.go` lines 132-136). -/
def selectedSignature (r : ServeRequest) : String :=
  let sig := r.querySignature
  if sig = "" then r.headerSignature else sig

/-- The URL rewrite performed before proxying
(`main.go` line 152): `fmt.Sprintf("/%s%s", sig, strings.TrimPrefix(r.URL.Path, "/serve"))`. -/
def rewritePath (sig path : String) : String :=
  "/" ++ sig ++ trimPre path "/serve"

/-- The `/serve` handler of `main.go` (lines 131-156): take the signature
from query or header; when both are empty fall back to the reserved token
`"unsafe"`, except that a non-empty `x-api-key` header is compared against
`cfg.SecretKey` — a mismatch answers `401`, a match mints a fresh
signature over `r.URL.Path` with `cfg.SignatureSecretKey`.  The rewritten
request is handed to the imagor collaborator. -/
def serveHandler (cfg : Config) (r : ServeRequest) : ServeOutcome :=
  let sig := selectedSignature r
  if sig = "" then
    if r.apiKey ≠ "" then
      if constantTimeCompare r.apiKey cfg.secretKey ≠ 1 then
        .unauthorized
      else
        .forward (rewritePath (signString r.path cfg.signatureSecretKey) r.path)
    else
      .forward (rewritePath "unsafe" r.path)
  else
    .forward (rewritePath sig r.path)

/-- HTTP methods of the registered blob/sign routes. -/
inductive Method where
  | get
  | put
  | delete
  deriving Repr, DecidableEq

/-- A registered route: method, fiber path pattern, and the names of the
middlewares attached after the handler. -/
structure RouteEntry where
  method : Method
  pattern : String
  middlewares : List String
  deriving Repr, DecidableEq

/-- The route registrations of `main.go` lines 157-166, as a function of
`cfg.Public`: `GET /blob` always carries `verifyAccess`; `GET /blob/*`
carries it exactly when `cfg.Public` is not the string `"true"`;
`PUT /blob/*` and `DELETE /blob/*` always carry it; `GET /sign/*` carries
`verifyAPIKey`. -/
def routes (pub : String) : List RouteEntry :=
  [⟨.get, "/blob", ["verifyAccess"]⟩]
  ++ (if pub = "true" then
        [⟨.get, "/blob/*", []⟩]
      else
        [⟨.get, "/blob/*", ["verifyAccess"]⟩])
  ++ [⟨.put, "/blob/*", ["verifyAccess"]⟩,
      ⟨.delete, "/blob/*", ["verifyAccess"]⟩,
      ⟨.get, "/sign/*", ["verifyAPIKey"]⟩]

/-- The first registered route for a method and pattern (route patterns
are unique per method under fiber strict routing). -/
def findRoute (pub : String) (m : Method) (pat : String) : Option RouteEntry :=
  (routes pub).find? (fun e => e.method = m ∧ e.pattern = pat)

/-- Whether the route for a method and pattern is guarded by the
access-verification middleware. -/
def routeGuarded (pub : String) (m : Method) (pat : String) : Bool :=
  match findRoute pub m pat with
  | none => false
  | some e => "verifyAccess" ∈ e.middlewares

/-- Modelled from the spec: a blob metadata record
`{key, contentType, sizeBytes, checksum, createdAt, modifiedAt, deletedAt?}`
(section 3, Data Model; the `keyval` package source is not in the checked
tree).  The key is the association-list key of the store. -/
structure BlobMetadata where
  contentType : String
  sizeBytes : Nat
  checksum : Nat
  createdAt : Nat
  modifiedAt : Nat
  deletedAt : Option Nat
  deriving Repr, DecidableEq

/-- Modelled from the spec: the `keyval` configuration values the core
consumes that matter to these claims — the soft-delete flag, the max
upload size and the allowed MIME-type prefixes (section 6). -/
structure KVConfig where
  softDelete : Bool
  maxSize : Nat
  allowedMimeTypes : List String
  deriving Repr, DecidableEq

/-- The `keyval.Config` values `main.go` (lines 50-60) passes to the blob
store: `SoftDelete: true`, `MaxSize: cfg.MaxUploadSize`,
`AllowedMimeTypes: []string{"image/"}`. -/
def mainKVConfig (maxUploadSize : Nat) : KVConfig :=
  { softDelete := true, maxSize := maxUploadSize, allowedMimeTypes := ["image/"] }

/-- Modelled from the spec: the visible state of the blob subsystem — the
metadata index (one record per key), the content files keyed identically,
and the staged temporary files currently on disk (sections 3, 4.3, 4.4). -/
structure StoreState where
  meta : List (String × BlobMetadata)
  content : List (String × List Nat)
  temps : List (List Nat)
  deriving Repr, DecidableEq

/-- Association-list lookup for store maps. -/
def alistGet {α : Type} (k : String) (l : List (String × α)) : Option α :=
  (l.find? (fun p => p.1 = k)).map Prod.snd

/-- Association-list upsert: replace the record for `k` or append it. -/
def alistPut {α : Type} (k : String) (v : α) (l : List (String × α)) : List (String × α) :=
  match l with
  | [] => [(k, v)]
  | (k', v') :: rest =>
      if k' = k then (k, v) :: rest else (k', v') :: alistPut k v rest

/-- Association-list removal of every record for `k`. -/
def alistDel {α : Type} (k : String) (l : List (String × α)) : List (String × α) :=
  l.filter (fun p => p.1 ≠ k)

/-- Modelled from the spec: the MIME allow-list is matched by prefix
against the declared content type (section 4.4). -/
def mimeAllowed (allowed : List String) (ct : String) : Bool :=
  allowed.any (fun pre => pre.data.isPrefixOf ct.data)

/-- Modelled from the spec: a simple checksum of the streamed bytes
standing in for the content hash computed during staging (section 4.4);
the claims proved below do not depend on its choice. -/
def bodyChecksum (body : List Nat) : Nat :=
  body.foldl (fun h b => (h * 257 + b) % (2 ^ 64)) 0

/-- Modelled from the spec: the failure taxonomy of the ingestion
pipeline relevant to claim C4 (sections 4.4, 7): the hard byte ceiling,
the MIME allow-list, disk I/O errors and client disconnects. -/
inductive PutError where
  | payloadTooLarge
  | unsupportedMediaType
  | ioError
  | clientDisconnect
  deriving Repr, DecidableEq

/-- Decidable equality for `Except`, used to evaluate ingestion outcomes
on concrete inputs. -/
instance {ε α : Type} [DecidableEq ε] [DecidableEq α] : DecidableEq (Except ε α) := fun
  | .error a, .error b =>
      if h : a = b then .isTrue (by rw [h])
      else .isFalse (fun hc => by cases hc; exact h rfl)
  | .error _, .ok _ => .isFalse (fun hc => by cases hc)
  | .ok _, .error _ => .isFalse (fun hc => by cases hc)
  | .ok a, .ok b =>
      if h : a = b then .isTrue (by rw [h])
      else .isFalse (fun hc => by cases hc; exact h rfl)

/-- Result of a `PUT /blob/{key}` ingestion: the store state after the
request and the outcome returned to the client. -/
structure PutResult where
  state : StoreState
  outcome : Except PutError BlobMetadata
  deriving Repr, DecidableEq

/-- Modelled from the spec, section 4.4 (the `keyval` ingestion pipeline
source is not in the checked tree).  The body is streamed to a temporary
file while the checksum is computed; the MIME allow-list is checked from
the declared content type, the hard byte ceiling aborts with
`PayloadTooLarge` once exceeded; a disk error or a client disconnect mid
stream aborts the write.  Every failure discards the temporary file and
performs no metadata mutation, so the state of a failed request is the
prior state; on clean EOF within the limit the temp file is atomically
moved into place and only then is the metadata upsert committed (with
`deletedAt` cleared). -/
def putBlob (cfg : KVConfig) (s : StoreState) (key : String) (body : List Nat)
    (contentType : String) (ioError clientDisconnect : Bool) (now : Nat) : PutResult :=
  if ¬ mimeAllowed cfg.allowedMimeTypes contentType then
    { state := s, outcome := .error .unsupportedMediaType }
  else if cfg.maxSize < body.length then
    { state := s, outcome := .error .payloadTooLarge }
  else if ioError then
    { state := s, outcome := .error .ioError }
  else if clientDisconnect then
    { state := s, outcome := .error .clientDisconnect }
  else
    let createdAt := match alistGet key s.meta with
      | some old => old.createdAt
      | none => now
    let record : BlobMetadata :=
      { contentType := contentType
        sizeBytes := body.length
        checksum := bodyChecksum body
        createdAt := createdAt
        modifiedAt := now
        deletedAt := none }
    { state :=
        { meta := alistPut key record s.meta
          content := alistPut key body s.content
          temps := s.temps }
      outcome := .ok record }

/-- Modelled from the spec: the outcome a `DELETE /blob/{key}` returns —
`ok` when a live record was deleted, `notFound` when the key is absent or
(under the soft-delete policy) already tombstoned, mirroring `Get(key)`
which returns NotFound for absent or tombstoned keys (sections 4.3, 4.5). -/
inductive DeleteOutcome where
  | ok
  | notFound
  deriving Repr, DecidableEq

/-- Modelled from the spec, sections 4.3 and 4.5 (the `keyval` source is
not in the checked tree): `Delete(key)` sets `deletedAt` and retains the
record and the bytes when the soft-delete flag is set, and removes both
the record and the content file when it is not; a key that is absent, or
already tombstoned under the soft-delete policy, is reported `notFound`
and the state is unchanged. -/
def deleteBlob (cfg : KVConfig) (s : StoreState) (key : String) (now : Nat) :
    StoreState × DeleteOutcome :=
  match alistGet key s.meta with
  | none => (s, .notFound)
  | some m =>
      if cfg.softDelete then
        if m.deletedAt.isSome then (s, .notFound)
        else ({ s with meta := alistPut key { m with deletedAt := some now } s.meta }, .ok)
      else
        ({ s with meta := alistDel key s.meta, content := alistDel key s.content }, .ok)

/-- A key counts as already deleted or absent for claim C8 when the index
has no record for it, or (under the soft-delete policy) only a tombstone. -/
def deletedOrAbsent (cfg : KVConfig) (s : StoreState) (key : String) : Bool :=
  match alistGet key s.meta with
  | none => true
  | some m => cfg.softDelete && m.deletedAt.isSome

/-! Sample inputs used to evaluate the model on concrete data. -/

/-- A concrete production-style configuration: public mode off, non-empty
API secret. -/
def sampleConfig : Config :=
  { secretKey := "api-secret"
    signatureSecretKey := "sign-secret"
    public := "false"
    environment := "production" }

/-- A concrete configuration with an empty API secret key
(`cfg.SecretKey == ""`, the case `main.go` lines 104-106 warns about). -/
def emptyKeyConfig : Config :=
  { secretKey := ""
    signatureSecretKey := "sign-secret"
    public := "false"
    environment := "production" }

/-- The empty blob store. -/
def emptyStore : StoreState :=
  { meta := [], content := [], temps := [] }

/-- A store holding a single tombstoned record for key `"k"`. -/
def tombStore : StoreState :=
  { meta := [("k",
      { contentType := "image/png", sizeBytes := 1, checksum := 7
        createdAt := 0, modifiedAt := 0, deletedAt := some 1 })]
    content := [("k", [7])]
    temps := [] }

/-- A store holding a single live record for key `"k"`. -/
def liveStore : StoreState :=
  { meta := [("k",
      { contentType := "image/png", sizeBytes := 1, checksum := 7
        createdAt := 0, modifiedAt := 0, deletedAt := none })]
    content := [("k", [7])]
    temps := [] }

/-! Association-list helper lemmas. -/

/-- Looking up a key right after upserting it yields the new record. -/
theorem alistGet_put {α : Type} (k : String) (v : α) (l : List (String × α)) :
    alistGet k (alistPut k v l) = some v := by
  induction l with
  | nil => simp [alistGet, alistPut, List.find?]
  | cons hd tl ih =>
      by_cases h : hd.1 = k
      · simp [alistGet, alistPut, h, List.find?]
      · simp only [alistPut, h, if_false]
        simpa [alistGet, List.find?, h] using ih

/-- Looking up a key right after removing it yields nothing. -/
theorem alistGet_del {α : Type} (k : String) (l : List (String × α)) :
    alistGet k (alistDel k l) = none := by
  induction l with
  | nil => simp [alistGet, alistDel]
  | cons hd tl ih =>
      by_cases h : hd.1 = k
      · simpa [alistDel, h] using ih
      · simp only [alistDel, List.filter] at ih ⊢
        simp [alistGet, List.find?, h, ih]

/-! Claim theorems. -/

/-- C1: for every configuration, the write-class routes `PUT /blob/*` and
`DELETE /blob/*` and the collection listing `GET /blob` carry the
access-verification middleware regardless of the public-mode setting,
while the read route `GET /blob/*` bypasses the guard exactly when public
mode (`cfg.Public == "true"`) is enabled. -/
theorem claim1_route_guarding (pub : String) :
    routeGuarded pub .get "/blob" = true ∧
    routeGuarded pub .put "/blob/*" = true ∧
    routeGuarded pub .delete "/blob/*" = true ∧
    (routeGuarded pub .get "/blob/*" = false ↔ pub = "true") := by
  by_cases h : pub = "true"
  · subst h; refine ⟨by decide, by decide, by decide, ?_⟩
    simp only [iff_true]
    decide
  · refine ⟨?_, ?_, ?_, ?_⟩ <;>
      simp [routeGuarded, findRoute, routes, h, List.find?]

/-- C2 counterexample: with public mode off and a production environment,
a `/serve` request carrying neither an `x-signature` (query or header)
nor an `x-api-key` is not denied by the handler — it is forwarded to the
image collaborator under the reserved token `unsafe`. -/
theorem claim2_counterexample :
    serveHandler sampleConfig
        { path := "/serve/a.png", querySignature := "", headerSignature := "", apiKey := "" } =
      .forward "/unsafe/a.png" ∧
    serveHandler sampleConfig
        { path := "/serve/a.png", querySignature := "", headerSignature := "", apiKey := "" } ≠
      .unauthorized := by
  constructor <;> decide

/-- C2 (amended): for every configuration — public or not — a `GET /serve`
request presenting neither a signature token nor an API key reaches the
reserved-token branch and is forwarded to the image collaborator under the
literal token `unsafe`; the handler itself never denies such a request,
and any denial is delegated to the collaborator downstream. -/
theorem claim2_amended (cfg : Config) (r : ServeRequest)
    (hq : r.querySignature = "") (hh : r.headerSignature = "") (hk : r.apiKey = "") :
    serveHandler cfg r = .forward (rewritePath "unsafe" r.path) := by
  simp [serveHandler, selectedSignature, hq, hh, hk]

/-- Witness for the amended C2 at a concrete production configuration and
request. -/
theorem claim2_amended_witness :
    serveHandler sampleConfig
        { path := "/serve/a.png", querySignature := "", headerSignature := "", apiKey := "" } =
      .forward (rewritePath "unsafe" "/serve/a.png") :=
  claim2_amended sampleConfig
    { path := "/serve/a.png", querySignature := "", headerSignature := "", apiKey := "" }
    rfl rfl rfl

/-- C3: the `/serve` handler evaluates credentials in order: a present
(non-empty) signature token — query first, then header — is forwarded for
downstream verification untouched; otherwise a present API key is compared
against the configured secret, a mismatch answering `401 Unauthorized` and
a match forwarding a freshly minted signature over the request path; only
when neither credential is present does it fall through to the reserved
token. -/
theorem claim3_credential_order (cfg : Config) (r : ServeRequest) :
    (r.querySignature ≠ "" →
        serveHandler cfg r = .forward (rewritePath r.querySignature r.path)) ∧
    (r.querySignature = "" → r.headerSignature ≠ "" →
        serveHandler cfg r = .forward (rewritePath r.headerSignature r.path)) ∧
    (r.querySignature = "" → r.headerSignature = "" → r.apiKey ≠ "" →
        (r.apiKey ≠ cfg.secretKey → serveHandler cfg r = .unauthorized) ∧
        (r.apiKey = cfg.secretKey →
            serveHandler cfg r =
              .forward (rewritePath (signString r.path cfg.signatureSecretKey) r.path))) ∧
    (r.querySignature = "" → r.headerSignature = "" → r.apiKey = "" →
        serveHandler cfg r = .forward (rewritePath "unsafe" r.path)) := by
  refine ⟨?_, ?_, ?_, ?_⟩
  · intro hq
    simp [serveHandler, selectedSignature, hq]
  · intro hq hh
    simp [serveHandler, selectedSignature, hq, hh]
  · intro hq hh hk
    constructor
    · intro hne
      simp [serveHandler, selectedSignature, constantTimeCompare, hq, hh, hk, hne]
    · intro heq
      have hk' : cfg.secretKey ≠ "" := heq ▸ hk
      simp [serveHandler, selectedSignature, constantTimeCompare, hq, hh, heq, hk']
  · intro hq hh hk
    simp [serveHandler, selectedSignature, hq, hh, hk]

/-- Witness for C3: a concrete request with no signature and a wrong API
key is answered `401 Unauthorized`. -/
theorem claim3_credential_order_witness :
    serveHandler sampleConfig
        { path := "/serve/a.png", querySignature := "", headerSignature := "",
          apiKey := "wrong-key" } =
      .unauthorized :=
  ((claim3_credential_order sampleConfig
      { path := "/serve/a.png", querySignature := "", headerSignature := "",
        apiKey := "wrong-key" }).2.2.1
    rfl rfl (by decide)).1 (by decide)

/-- C9: in the `/serve` handler, a non-empty `x-signature` query parameter
is the one used — the forwarded path embeds it and the `x-signature`
header is ignored entirely — while the header value is consulted exactly
when the query parameter is empty. -/
theorem claim9_query_signature_precedence (cfg : Config) (r : ServeRequest) :
    (r.querySignature ≠ "" →
        serveHandler cfg r = .forward (rewritePath r.querySignature r.path) ∧
        ∀ h : String,
          serveHandler cfg { r with headerSignature := h } = serveHandler cfg r) ∧
    (r.querySignature = "" → selectedSignature r = r.headerSignature) := by
  constructor
  · intro hq
    constructor
    · simp [serveHandler, selectedSignature, hq]
    · intro h
      simp [serveHandler, selectedSignature, hq]
  · intro hq
    simp [selectedSignature, hq]

/-- Witness for C9: a concrete request carrying both a query and a header
signature forwards the query one. -/
theorem claim9_query_signature_precedence_witness :
    serveHandler sampleConfig
        { path := "/serve/a.png", querySignature := "qsig", headerSignature := "hsig",
          apiKey := "" } =
      .forward (rewritePath "qsig" "/serve/a.png") :=
  ((claim9_query_signature_precedence sampleConfig
      { path := "/serve/a.png", querySignature := "qsig", headerSignature := "hsig",
        apiKey := "" }).1 (by decide)).1

/-- C10: when the configured API secret key is the empty string, a
`GET /serve` request with no `x-signature` and a non-empty `x-api-key` is
rejected `401 Unauthorized` (the non-empty key never equals the empty
secret), while the same request without the `x-api-key` header falls
through to the reserved token. -/
theorem claim10_empty_secret_key (cfg : Config) (r : ServeRequest)
    (hsec : cfg.secretKey = "")
    (hq : r.querySignature = "") (hh : r.headerSignature = "") :
    (r.apiKey ≠ "" → serveHandler cfg r = .unauthorized) ∧
    (r.apiKey = "" → serveHandler cfg r = .forward (rewritePath "unsafe" r.path)) := by
  constructor
  · intro hk
    have hne : r.apiKey ≠ cfg.secretKey := by rw [hsec]; exact hk
    simp [serveHandler, selectedSignature, constantTimeCompare, hq, hh, hk, hne]
  · intro hk
    simp [serveHandler, selectedSignature, hq, hh, hk]

/-- Witness for C10: with the empty-secret configuration, a concrete
request carrying an API key is rejected. -/
theorem claim10_empty_secret_key_witness :
    serveHandler emptyKeyConfig
        { path := "/serve/a.png", querySignature := "", headerSignature := "",
          apiKey := "any-key" } =
      .unauthorized :=
  (claim10_empty_secret_key emptyKeyConfig
      { path := "/serve/a.png", querySignature := "", headerSignature := "",
        apiKey := "any-key" }
    rfl rfl rfl).1 (by decide)

/-- C5: signing a path and verifying the resulting token with the same
path and secret yields the `valid` outcome, for every path, secret and
verification time. -/
theorem claim5_sign_verify_roundtrip (p s : String) (now : Nat) :
    Verify p (Sign p s none) s now = .valid := by
  simp [Verify, Sign]

/-- C4: a `PUT /blob/{key}` that fails at any step of the durability
protocol leaves the store exactly as it was — no metadata mutation, no
content, no retained temp file; in particular a body of `MaxSize + 1`
bytes fails with `PayloadTooLarge` leaving the prior state intact, while a
body of exactly `MaxSize` bytes succeeds. -/
theorem claim4_put_failure_atomicity (cfg : KVConfig) (s : StoreState) (key : String)
    (body : List Nat) (ct : String) (io dc : Bool) (now : Nat) :
    (∀ e, (putBlob cfg s key body ct io dc now).outcome = .error e →
        (putBlob cfg s key body ct io dc now).state = s) ∧
    (mimeAllowed cfg.allowedMimeTypes ct = true → body.length = cfg.maxSize + 1 →
        (putBlob cfg s key body ct io dc now).outcome = .error .payloadTooLarge ∧
        (putBlob cfg s key body ct io dc now).state = s) ∧
    (mimeAllowed cfg.allowedMimeTypes ct = true → body.length = cfg.maxSize →
        io = false → dc = false →
        ∃ m, (putBlob cfg s key body ct io dc now).outcome = .ok m) := by
  refine ⟨?_, ?_, ?_⟩
  · intro e he
    by_cases h1 : mimeAllowed cfg.allowedMimeTypes ct = true
    · by_cases h2 : cfg.maxSize < body.length
      · simp [putBlob, h1, h2]
      · by_cases h3 : io = true
        · simp [putBlob, h1, h2, h3]
        · by_cases h4 : dc = true
          · simp [putBlob, h1, h2, h3, h4]
          · exfalso
            simp [putBlob, h1, h2, h3, h4] at he
    · simp [putBlob, h1]
  · intro hmime hlen
    have h2 : cfg.maxSize < body.length := by omega
    simp [putBlob, hmime, h2]
  · intro hmime hlen hio hdc
    have h2 : ¬ cfg.maxSize < body.length := by omega
    exact ⟨_, by simp [putBlob, hmime, h2, hio, hdc]; rfl⟩

/-- Witness for C4: on a 4-byte limit, a fresh store and a 5-byte
`image/png` body, ingestion fails with `PayloadTooLarge` and the store is
still empty. -/
theorem claim4_put_failure_atomicity_witness :
    (putBlob (mainKVConfig 4) emptyStore "k" [1, 2, 3, 4, 5] "image/png" false false 0).outcome
        = .error .payloadTooLarge ∧
    (putBlob (mainKVConfig 4) emptyStore "k" [1, 2, 3, 4, 5] "image/png" false false 0).state
        = emptyStore :=
  (claim4_put_failure_atomicity (mainKVConfig 4) emptyStore "k" [1, 2, 3, 4, 5] "image/png"
      false false 0).2.1 (by decide) (by decide)

/-- C7: the deletion mode is selected by the soft-delete configuration
flag: deleting a live record sets `deletedAt` and retains the record (and
the content bytes) when the flag is set, and removes both the record and
the content file when it is not. -/
theorem claim7_delete_mode (cfg : KVConfig) (s : StoreState) (key : String) (now : Nat)
    (m : BlobMetadata) (hm : alistGet key s.meta = some m) (hlive : m.deletedAt = none) :
    (cfg.softDelete = true →
        (deleteBlob cfg s key now).2 = .ok ∧
        alistGet key (deleteBlob cfg s key now).1.meta =
          some { m with deletedAt := some now } ∧
        (deleteBlob cfg s key now).1.content = s.content) ∧
    (cfg.softDelete = false →
        (deleteBlob cfg s key now).2 = .ok ∧
        alistGet key (deleteBlob cfg s key now).1.meta = none ∧
        alistGet key (deleteBlob cfg s key now).1.content = none) := by
  constructor
  · intro hsoft
    simp [deleteBlob, hm, hlive, hsoft, alistGet_put]
  · intro hhard
    simp [deleteBlob, hm, hlive, hhard, alistGet_del]

/-- Witness for C7: soft-deleting the live record of `liveStore` stamps
`deletedAt` while keeping the record and the bytes. -/
theorem claim7_delete_mode_witness :
    (deleteBlob (mainKVConfig 4) liveStore "k" 5).2 = .ok ∧
    alistGet "k" (deleteBlob (mainKVConfig 4) liveStore "k" 5).1.meta =
      some { contentType := "image/png", sizeBytes := 1, checksum := 7
             createdAt := 0, modifiedAt := 0, deletedAt := some 5 } ∧
    (deleteBlob (mainKVConfig 4) liveStore "k" 5).1.content = liveStore.content :=
  (claim7_delete_mode (mainKVConfig 4) liveStore "k" 5
      { contentType := "image/png", sizeBytes := 1, checksum := 7
        createdAt := 0, modifiedAt := 0, deletedAt := none }
      (by decide) rfl).1 rfl

/-- C8: deleting a key that is already deleted or absent returns
`notFound` and leaves the store unchanged, so repeating the `DELETE`
yields the same outcome as the first call. -/
theorem claim8_delete_idempotent (cfg : KVConfig) (s : StoreState) (key : String)
    (now now' : Nat) (h : deletedOrAbsent cfg s key = true) :
    deleteBlob cfg s key now = (s, .notFound) ∧
    deleteBlob cfg (deleteBlob cfg s key now).1 key now' = (s, .notFound) := by
  have h1 : ∀ t, deleteBlob cfg s key t = (s, .notFound) := by
    intro t
    unfold deletedOrAbsent at h
    cases hg : alistGet key s.meta with
    | none => simp [deleteBlob, hg]
    | some m =>
        rw [hg] at h
        simp only [Bool.and_eq_true] at h
        simp [deleteBlob, hg, h.1, h.2]
  exact ⟨h1 now, by rw [h1 now]; exact h1 now'⟩

/-- Witness for C8: repeatedly deleting the tombstoned key of `tombStore`
returns `notFound` both times and never changes the store. -/
theorem claim8_delete_idempotent_witness :
    deleteBlob (mainKVConfig 4) tombStore "k" 2 = (tombStore, .notFound) ∧
    deleteBlob (mainKVConfig 4) (deleteBlob (mainKVConfig 4) tombStore "k" 2).1 "k" 3 =
      (tombStore, .notFound) :=
  claim8_delete_idempotent (mainKVConfig 4) tombStore "k" 2 3 (by decide)

end RailwayImage
